import Mathlib

/-!
Shallow embedding of the Comet relay server (src/connection_manager.py,
src/main.py, src/utils.py).

Connection handles (Python `WebSocket` objects) are modelled as natural
numbers compared by identity, matching the source's use of `==` on the
stored websocket object.  The process-wide dictionary
`ConnectionManager.rooms : Dict[str, List[dict]]` is modelled as an
association list `List (String × List Conn)`; Python dict assignment
replaces the value of an existing key in place and appends a new key at
the end, deletion removes the key, and lookup finds the (unique) entry.

External network calls (googletrans, ElevenLabs TTS, Google speech
recognition) are modelled as oracle functions passed in as arguments;
an oracle returning `Except.error` models the Python call raising.
-/

namespace Comet

/-- One stored connection record, as appended by
`ConnectionManager.connect` (src/connection_manager.py lines 27-33):
keys "websocket", "model_id", "user_id", "username", "language".
`language` is `Option String` because the route handler passes the
optional `language` query parameter (possibly `None`). -/
structure Conn where
  websocket : Nat
  model_id : String
  user_id : String
  username : String
  language : Option String
deriving DecidableEq, Repr

/-- The outbound JSON payload shape built in the fan-out loops and the
departure notice of src/main.py: keys model_id, user_id, username, text,
audio. -/
structure Payload where
  model_id : String
  user_id : String
  username : String
  text : String
  audio : String
deriving DecidableEq, Repr

/-- `ConnectionManager.rooms`: room id → list of connection records. -/
abbrev Registry := List (String × List Conn)

/-- Python `room_id in self.rooms` / `self.rooms[room_id]` read access:
look up the value stored under a key. -/
def lookupRoom (st : Registry) (r : String) : Option (List Conn) :=
  match st with
  | [] => none
  | e :: rest => if e.1 = r then some e.2 else lookupRoom rest r

/-- Python `self.rooms[room_id] = l`: replace the value of an existing
key in place, or append the new key at the end. -/
def setRoom (st : Registry) (r : String) (l : List Conn) : Registry :=
  match st with
  | [] => [(r, l)]
  | e :: rest => if e.1 = r then (r, l) :: rest else e :: setRoom rest r l

/-- Python `del self.rooms[room_id]`: remove the key. -/
def delRoom (st : Registry) (r : String) : Registry :=
  match st with
  | [] => []
  | e :: rest => if e.1 = r then delRoom rest r else e :: delRoom rest r

/-- The connection records currently stored for a room (empty list when
the room key is absent). -/
def participants (st : Registry) (r : String) : List Conn :=
  (lookupRoom st r).getD []

/-- Close code used by `ConnectionManager.connect` when a room already
holds 2 users: `await websocket.close(code=1000)`
(src/connection_manager.py line 25). -/
def capacityCloseCode : Nat := 1000

/-- Close code used by the websocket route handlers for a missing or
invalid token: `await websocket.close(code=1008)` (src/main.py lines
92 and 99). -/
def unauthorizedCloseCode : Nat := 1008

/-- Result of a `connect` call as observed by the joining client:
either the record was appended, or the socket was closed with a code. -/
inductive ConnectResult
  | joined
  | rejected (code : Nat)
deriving DecidableEq, Repr

/-- `ConnectionManager.connect` (src/connection_manager.py lines 18-33):
create the room entry if absent, reject (close code 1000) when the room
already has ≥ 2 users, otherwise append the new record. -/
def connect (st : Registry) (room_id : String) (c : Conn) :
    Registry × ConnectResult :=
  let st1 := if lookupRoom st room_id = none then setRoom st room_id [] else st
  let cur := (lookupRoom st1 room_id).getD []
  if 2 ≤ cur.length then (st1, .rejected capacityCloseCode)
  else (setRoom st1 room_id (cur ++ [c]), .joined)

/-- `ConnectionManager.is_connected` (src/connection_manager.py lines
35-39). -/
def is_connected (st : Registry) (room_id : String) (ws : Nat) : Bool :=
  match lookupRoom st room_id with
  | some l => l.any (fun c => c.websocket = ws)
  | none => false

/-- The list-comprehension predicate of `ConnectionManager.disconnect`:
`conn["websocket"] != websocket`. -/
def keepConn (ws : Nat) (c : Conn) : Bool := ¬ c.websocket = ws

/-- `ConnectionManager.disconnect` (src/connection_manager.py lines
41-45): filter the websocket out of the room list, then delete the room
entry if the list became empty. -/
def disconnect (st : Registry) (room_id : String) (ws : Nat) : Registry :=
  match lookupRoom st room_id with
  | none => st
  | some l =>
      let l2 := l.filter (keepConn ws)
      let st2 := setRoom st room_id l2
      if l2 = [] then delRoom st2 room_id else st2

/-- One join or leave operation on the shared registry, as driven by the
route handlers of src/main.py. -/
inductive Op
  | join (room_id : String) (c : Conn)
  | leave (room_id : String) (ws : Nat)

/-- Apply one operation to the registry. -/
def runOp (st : Registry) : Op → Registry
  | .join r c => (connect st r c).1
  | .leave r w => disconnect st r w

/-- Run a sequence of join/leave operations from the empty registry. -/
def runOps (ops : List Op) : Registry :=
  ops.foldl runOp []

/-! ### base64 (Python `base64.b64encode(...).decode("utf-8")`) -/

/-- The standard base64 alphabet. -/
def b64alphabet : List Char :=
  "ABCDEFGHIJKLMNOPQRSTUVWXYZabcdefghijklmnopqrstuvwxyz0123456789+/".toList

/-- The base64 digit for a 6-bit value. -/
def b64char (n : Nat) : Char := b64alphabet.getD n 'A'

/-- Standard base64 of a byte list, with `=` padding, as produced by
`base64.b64encode`. -/
def b64encode : List Nat → List Char
  | [] => []
  | [b1] =>
      [b64char (b1 / 4 % 64), b64char (b1 % 4 * 16), '=', '=']
  | [b1, b2] =>
      [b64char (b1 / 4 % 64), b64char (b1 % 4 * 16 + b2 / 16 % 16),
       b64char (b2 % 16 * 4), '=']
  | b1 :: b2 :: b3 :: rest =>
      b64char (b1 / 4 % 64) :: b64char (b1 % 4 * 16 + b2 / 16 % 16) ::
      b64char (b2 % 16 * 4 + b3 / 64 % 4) :: b64char (b3 % 64) ::
      b64encode rest

/-- `base64.b64encode(audio_content).decode("utf-8")` as a `String`. -/
def b64encodeStr (bs : List Nat) : String := String.mk (b64encode bs)

/-! ### utils.py -/

/-- `utils.translate_text` (src/utils.py lines 36-45): call the
googletrans adapter (oracle `tr`); on any exception fall back to the
original text. -/
def translate_text (tr : String → String → Except Unit String)
    (text target_language : String) : String :=
  match tr text target_language with
  | .ok result => result
  | .error _ => text

/-- `utils.generate_tts` (src/utils.py lines 15-33): one POST to the
ElevenLabs TTS endpoint (oracle `tts`), returning the MP3 bytes;
`raise_for_status` means a failed call raises, modelled by
`Except.error`. -/
def generate_tts (tts : String → String → Except Unit (List Nat))
    (voice_id text : String) : Except Unit (List Nat) :=
  tts voice_id text

/-- Outcome of `recognizer.recognize_google(audio)` in
`utils.transcribe_audio`: a transcription, `sr.UnknownValueError`
(speech unintelligible), or `sr.RequestError` (service unreachable). -/
inductive RecogResult
  | recognized (text : String)
  | unknownValueError
  | requestError (msg : String)
deriving DecidableEq, Repr

/-- `utils.transcribe_audio` (src/utils.py lines 68-95).  The
`sr.AudioFile` block sits OUTSIDE the try/except, so a byte string that
cannot be read as WAV/AIFF/FLAC raises `ValueError` uncaught (oracle
`parseAudioFile` returning `Except.error`).  Inside the try:
`recognize_google` success returns the text, `UnknownValueError`
returns `""`, `RequestError` re-raises `Exception(...)`. -/
def transcribe_audio (parseAudioFile : List Nat → Except Unit Unit)
    (recognize : List Nat → RecogResult)
    (audio_data : List Nat) : Except String String :=
  match parseAudioFile audio_data with
  | .error _ =>
      .error "Audio file could not be read as PCM WAV, AIFF/AIFC, or Native FLAC"
  | .ok _ =>
      match recognize audio_data with
      | .recognized text => .ok text
      | .unknownValueError => .ok ""
      | .requestError e =>
          .error ("Error with the speech recognition service: " ++ e)

/-! ### main.py -/

/-- Python truthiness of an optional string: `None` and `""` are falsy. -/
def pyTruthy : Option String → Bool
  | none => false
  | some s => ¬ s = ""

/-- Python `a or b` on two optional strings (src/main.py line 90):
yields `b` when `a` is falsy. -/
def pyOr (a b : Option String) : Option String :=
  if pyTruthy a then a else b

/-- Strip the `"Bearer "` prefix when present (src/main.py lines
94-95). -/
def stripBearer (t : String) : String :=
  if t.startsWith "Bearer " then t.drop "Bearer ".length else t

/-- How the websocket handler's pre-loop phase ends: closed with a
close code before any registry call (no/invalid token), returned after
a rejected join (the socket was already closed inside `connect` with
`capacityCloseCode`), or entered the receive loop. -/
inductive SessionStart
  | closedUnauthorized (code : Nat)
  | exitedNotConnected
  | active
deriving DecidableEq, Repr

/-- The pre-loop phase of `websocket_chat` (src/main.py lines 89-108):
token extraction (header `or` query parameter), `verify_token` (oracle
`verify`; `Except.error` models the `HTTPException` raised for an
invalid token), then `manager.connect` and the `is_connected` check.
Returns the registry after the phase and how the phase ended. -/
def websocket_chat_start (st : Registry)
    (authHeader queryToken : Option String)
    (verify : String → Except Unit Unit)
    (room_id model_id user_id username : String) (ws : Nat)
    (language : Option String) : Registry × SessionStart :=
  match pyOr authHeader queryToken with
  | none => (st, .closedUnauthorized unauthorizedCloseCode)
  | some token =>
      if token = "" then (st, .closedUnauthorized unauthorizedCloseCode)
      else
        match verify (stripBearer token) with
        | .error _ => (st, .closedUnauthorized unauthorizedCloseCode)
        | .ok _ =>
            let st2 := (connect st room_id
              ⟨ws, model_id, user_id, username, language⟩).1
            if is_connected st2 room_id ws then (st2, .active)
            else (st2, .exitedNotConnected)

/-- The per-recipient text of the chat fan-out loop (src/main.py lines
116-120): translate when the receiver's stored language is truthy and
differs from the sender's `language` variable; `translate_text` itself
already falls back on failure. -/
def resolveText (tr : String → String → Except Unit String)
    (senderLanguage : Option String) (original_text : String)
    (c : Conn) : String :=
  if pyTruthy c.language ∧ ¬ c.language = senderLanguage then
    translate_text tr original_text ((c.language).getD "")
  else original_text

/-- The fan-out loop body of `websocket_chat` (src/main.py lines
115-133) over a list of connection records: for each record compute the
(possibly translated) text, call `generate_tts`, base64-encode, build
the payload and send it.  `generate_tts` raising is NOT caught inside
the loop: the loop aborts there, payloads already sent stay sent, the
remaining records get nothing.  Returns the deliveries made (websocket
handle, payload) and whether the loop was aborted by an exception. -/
def fanOutLoop (tr : String → String → Except Unit String)
    (tts : String → String → Except Unit (List Nat))
    (senderLanguage : Option String)
    (model_id user_id username original_text : String) :
    List Conn → List (Nat × Payload) × Bool
  | [] => ([], false)
  | c :: rest =>
      let text := resolveText tr senderLanguage original_text c
      match generate_tts tts model_id text with
      | .error _ => ([], true)
      | .ok audio_content =>
          let p : Payload :=
            ⟨model_id, user_id, username, text, b64encodeStr audio_content⟩
          let tail := fanOutLoop tr tts senderLanguage model_id user_id
            username original_text rest
          ((c.websocket, p) :: tail.1, tail.2)

/-- One iteration of the `while True` receive loop of `websocket_chat`
for one received text (src/main.py lines 111-133): guarded by
`if room_id in manager.rooms`, then the fan-out loop over the stored
room list. -/
def chatBroadcast (st : Registry) (room_id : String)
    (tr : String → String → Except Unit String)
    (tts : String → String → Except Unit (List Nat))
    (senderLanguage : Option String)
    (model_id user_id username original_text : String) :
    List (Nat × Payload) × Bool :=
  match lookupRoom st room_id with
  | none => ([], false)
  | some l =>
      fanOutLoop tr tts senderLanguage model_id user_id username
        original_text l

/-- The departure notice text of src/main.py line 140:
`f"{username} has disconnected from room {room_id}."`. -/
def departureText (username room_id : String) : String :=
  username ++ " has disconnected from room " ++ room_id ++ "."

/-- The `except WebSocketDisconnect` handler of `websocket_chat`
(src/main.py lines 134-145): call `manager.disconnect` first, then send
every connection still stored for the room one departure-notice payload
with empty `audio`.  Returns the new registry and the deliveries. -/
def handle_disconnect (st : Registry) (room_id : String) (ws : Nat)
    (model_id user_id username : String) :
    Registry × List (Nat × Payload) :=
  let st2 := disconnect st room_id ws
  let msg : Payload :=
    ⟨model_id, user_id, username, departureText username room_id, ""⟩
  (st2, (participants st2 room_id).map (fun c => (c.websocket, msg)))

/-- A Python-level call of `utils.generate_tts` with a list of
positional string arguments.  `generate_tts` declares exactly two
parameters `(voice_id, text)` (src/utils.py line 15), so Python raises
`TypeError` for any other argument count before the body runs. -/
def call_generate_tts (tts : String → String → Except Unit (List Nat)) :
    List String → Except String (List Nat)
  | [voice_id, text] =>
      match generate_tts tts voice_id text with
      | .ok content => .ok content
      | .error _ => .error "HTTPError"
  | args =>
      .error ("TypeError: generate_tts() takes 2 positional arguments but "
        ++ toString args.length ++ " were given")

/-- The successful JSON body of `POST /v1/audio/translate`
(src/main.py lines 261-265). -/
structure AudioTranslateResp where
  original_text : String
  translated_text : String
  audio : String
deriving DecidableEq, Repr

/-- `audio_translate` (src/main.py lines 225-268): transcribe the
uploaded bytes, reject an empty transcription, translate, then call
`generate_tts(default_model_id, translated_text, target_language)` —
three positional arguments.  Everything runs inside
`try: ... except Exception as err: raise HTTPException(500, str(err))`;
the inner `HTTPException(400)` is itself an `Exception`, so it is
re-wrapped as a 500.  Errors are `(status, detail)` pairs. -/
def audio_translate (transcribe : List Nat → Except String String)
    (tr : String → String → Except Unit String)
    (tts : String → String → Except Unit (List Nat))
    (wav_bytes : List Nat) (target_language : String) :
    Except (Nat × String) AudioTranslateResp :=
  match transcribe wav_bytes with
  | .error e => .error (500, e)
  | .ok transcribed_text =>
      if transcribed_text = "" then
        .error (500, "400: Could not transcribe the audio.")
      else
        let translated_text :=
          translate_text tr transcribed_text target_language
        match call_generate_tts tts
            ["default", translated_text, target_language] with
        | .error e => .error (500, e)
        | .ok tts_audio =>
            .ok ⟨transcribed_text, translated_text, b64encodeStr tts_audio⟩

/-! ### Concrete records used to evaluate the theorems -/

/-- A concrete participant record. -/
def connA : Conn := ⟨1, "v1", "uA", "alice", some "en"⟩

/-- A concrete participant record. -/
def connB : Conn := ⟨2, "v2", "uB", "bob", some "fr"⟩

/-- A concrete participant record. -/
def connC : Conn := ⟨3, "v3", "uC", "carol", some "en"⟩

/-! ### Registry dictionary lemmas -/

lemma lookupRoom_setRoom_self (st : Registry) (r : String) (l : List Conn) :
    lookupRoom (setRoom st r l) r = some l := by
  induction st with
  | nil => simp [setRoom, lookupRoom]
  | cons e rest ih =>
      by_cases h : e.1 = r
      · simp [setRoom, h, lookupRoom]
      · simp [setRoom, h, lookupRoom, ih]

lemma lookupRoom_setRoom_ne (st : Registry) (r r' : String) (l : List Conn)
    (h : ¬ r' = r) : lookupRoom (setRoom st r l) r' = lookupRoom st r' := by
  have h' : ¬ r = r' := fun hh => h hh.symm
  induction st with
  | nil => simp [setRoom, lookupRoom, h']
  | cons e rest ih =>
      by_cases he : e.1 = r
      · have he' : ¬ e.1 = r' := by rw [he]; exact h'
        simp [setRoom, he, lookupRoom, h, h', he']
      · by_cases he' : e.1 = r'
        · simp [setRoom, he, lookupRoom, he', h, h']
        · simp [setRoom, he, lookupRoom, he', h, h', ih]

lemma lookupRoom_delRoom_self (st : Registry) (r : String) :
    lookupRoom (delRoom st r) r = none := by
  induction st with
  | nil => simp [delRoom, lookupRoom]
  | cons e rest ih =>
      by_cases h : e.1 = r
      · simpa [delRoom, h] using ih
      · simpa [delRoom, h, lookupRoom] using ih

lemma lookupRoom_delRoom_ne (st : Registry) (r r' : String) (h : ¬ r' = r) :
    lookupRoom (delRoom st r) r' = lookupRoom st r' := by
  have h' : ¬ r = r' := fun hh => h hh.symm
  induction st with
  | nil => simp [delRoom, lookupRoom]
  | cons e rest ih =>
      by_cases he : e.1 = r
      · have he' : ¬ e.1 = r' := by rw [he]; exact h'
        simp [delRoom, he, lookupRoom, he', h, h', ih]
      · by_cases he' : e.1 = r'
        · simp [delRoom, he, lookupRoom, he', h, h']
        · simp [delRoom, he, lookupRoom, he', h, h', ih]

lemma setRoom_self_eq (st : Registry) (r : String) (l : List Conn)
    (h : lookupRoom st r = some l) : setRoom st r l = st := by
  induction st with
  | nil => simp [lookupRoom] at h
  | cons e rest ih =>
      by_cases he : e.1 = r
      · simp only [lookupRoom, he, if_true, Option.some.injEq] at h
        simp only [setRoom, he, if_true]
        rw [← h, ← he]
      · simp only [lookupRoom, he, if_false] at h
        simp only [setRoom, he, if_false]
        rw [ih h]

/-! ### Equation lemmas for connect and disconnect -/

lemma connect_absent (st : Registry) (r : String) (c : Conn)
    (hl : lookupRoom st r = none) :
    connect st r c = (setRoom (setRoom st r []) r [c], .joined) := by
  simp [connect, hl, lookupRoom_setRoom_self]

lemma connect_full (st : Registry) (r : String) (c : Conn) (l : List Conn)
    (hl : lookupRoom st r = some l) (hlen : 2 ≤ l.length) :
    connect st r c = (st, .rejected capacityCloseCode) := by
  simp [connect, hl, hlen]

lemma connect_avail (st : Registry) (r : String) (c : Conn) (l : List Conn)
    (hl : lookupRoom st r = some l) (hlen : ¬ 2 ≤ l.length) :
    connect st r c = (setRoom st r (l ++ [c]), .joined) := by
  simp [connect, hl, hlen]

lemma disconnect_absent (st : Registry) (r : String) (w : Nat)
    (hl : lookupRoom st r = none) : disconnect st r w = st := by
  simp [disconnect, hl]

lemma disconnect_to_empty (st : Registry) (r : String) (w : Nat)
    (l : List Conn) (hl : lookupRoom st r = some l)
    (hemp : l.filter (keepConn w) = []) :
    disconnect st r w = delRoom (setRoom st r []) r := by
  unfold disconnect
  rw [hl]
  simp only [hemp, if_true]

lemma disconnect_keep (st : Registry) (r : String) (w : Nat)
    (l : List Conn) (hl : lookupRoom st r = some l)
    (hemp : ¬ l.filter (keepConn w) = []) :
    disconnect st r w = setRoom st r (l.filter (keepConn w)) := by
  unfold disconnect
  rw [hl]
  simp only [hemp, if_false]

/-! ### The room-existence invariant (claim C1) -/

/-- No room key is ever stored with an empty participant list. -/
def RegInv (st : Registry) : Prop :=
  ∀ r l, lookupRoom st r = some l → l ≠ []

lemma regInv_connect (st : Registry) (r : String) (c : Conn)
    (h : RegInv st) : RegInv (connect st r c).1 := by
  cases hl : lookupRoom st r with
  | none =>
      rw [connect_absent st r c hl]
      intro r' l' hl'
      by_cases hr : r' = r
      · subst hr
        rw [lookupRoom_setRoom_self] at hl'
        cases hl'
        simp
      · rw [lookupRoom_setRoom_ne _ _ _ _ hr,
          lookupRoom_setRoom_ne _ _ _ _ hr] at hl'
        exact h r' l' hl'
  | some l =>
      by_cases hlen : 2 ≤ l.length
      · rw [connect_full st r c l hl hlen]
        exact h
      · rw [connect_avail st r c l hl hlen]
        intro r' l' hl'
        by_cases hr : r' = r
        · subst hr
          rw [lookupRoom_setRoom_self] at hl'
          cases hl'
          simp
        · rw [lookupRoom_setRoom_ne _ _ _ _ hr] at hl'
          exact h r' l' hl'

lemma regInv_disconnect (st : Registry) (r : String) (w : Nat)
    (h : RegInv st) : RegInv (disconnect st r w) := by
  cases hl : lookupRoom st r with
  | none =>
      rw [disconnect_absent st r w hl]
      exact h
  | some l =>
      by_cases hemp : l.filter (keepConn w) = []
      · rw [disconnect_to_empty st r w l hl hemp]
        intro r' l' hl'
        by_cases hr : r' = r
        · subst hr
          rw [lookupRoom_delRoom_self] at hl'
          cases hl'
        · rw [lookupRoom_delRoom_ne _ _ _ hr,
            lookupRoom_setRoom_ne _ _ _ _ hr] at hl'
          exact h r' l' hl'
      · rw [disconnect_keep st r w l hl hemp]
        intro r' l' hl'
        by_cases hr : r' = r
        · subst hr
          rw [lookupRoom_setRoom_self] at hl'
          cases hl'
          exact hemp
        · rw [lookupRoom_setRoom_ne _ _ _ _ hr] at hl'
          exact h r' l' hl'

lemma regInv_runOps (ops : List Op) : RegInv (runOps ops) := by
  suffices h : ∀ st, RegInv st → RegInv (ops.foldl runOp st) by
    exact h [] (by intro r l hl; simp [lookupRoom] at hl)
  induction ops with
  | nil => intro st h; exact h
  | cons op rest ih =>
      intro st h
      cases op with
      | join r c => exact ih _ (regInv_connect st r c h)
      | leave r w => exact ih _ (regInv_disconnect st r w h)

/-! ### Lemmas about base64 and the fan-out loop -/

lemma b64encode_ne_nil (bs : List Nat) (h : ¬ bs = []) :
    ¬ b64encode bs = [] := by
  match bs with
  | [] => exact absurd rfl h
  | [b1] => simp [b64encode]
  | [b1, b2] => simp [b64encode]
  | b1 :: b2 :: b3 :: rest => simp [b64encode]

lemma b64encodeStr_ne_empty (bs : List Nat) (h : ¬ bs = []) :
    ¬ b64encodeStr bs = "" := by
  intro hemp
  apply b64encode_ne_nil bs h
  simpa [b64encodeStr] using congrArg String.data hemp

lemma fanOutLoop_cons_error (tr : String → String → Except Unit String)
    (tts : String → String → Except Unit (List Nat))
    (senderLanguage : Option String)
    (model_id user_id username original_text : String)
    (c : Conn) (rest : List Conn)
    (hc : tts model_id (resolveText tr senderLanguage original_text c)
      = .error ()) :
    fanOutLoop tr tts senderLanguage model_id user_id username
      original_text (c :: rest) = ([], true) := by
  simp [fanOutLoop, generate_tts, hc]

lemma fanOutLoop_cons_ok (tr : String → String → Except Unit String)
    (tts : String → String → Except Unit (List Nat))
    (senderLanguage : Option String)
    (model_id user_id username original_text : String)
    (c : Conn) (rest : List Conn) (b : List Nat)
    (hc : tts model_id (resolveText tr senderLanguage original_text c)
      = .ok b) :
    fanOutLoop tr tts senderLanguage model_id user_id username
        original_text (c :: rest)
      = ((c.websocket,
          ⟨model_id, user_id, username,
            resolveText tr senderLanguage original_text c,
            b64encodeStr b⟩) ::
          (fanOutLoop tr tts senderLanguage model_id user_id username
            original_text rest).1,
         (fanOutLoop tr tts senderLanguage model_id user_id username
           original_text rest).2) := by
  simp [fanOutLoop, generate_tts, hc]

/-! ### Concrete oracles used by the counterexamples and witnesses -/

/-- Translation oracle: translates "hello" to French as "bonjour",
fails on everything else. -/
def trC2 : String → String → Except Unit String :=
  fun t l => if t = "hello" ∧ l = "fr" then .ok "bonjour" else .error ()

/-- Synthesis oracle that fails exactly on the text "bonjour". -/
def ttsC2 : String → String → Except Unit (List Nat) :=
  fun _ t => if t = "bonjour" then .error () else .ok [1, 2, 3]

/-- Translation oracle that always fails. -/
def trFailOracle : String → String → Except Unit String :=
  fun _ _ => .error ()

/-- Synthesis oracle that always succeeds with non-empty audio. -/
def ttsOkOracle : String → String → Except Unit (List Nat) :=
  fun _ _ => .ok [1, 2, 3]

/-- An `sr.AudioFile` parse that fails: the bytes cannot be read as
PCM WAV, AIFF/AIFC or Native FLAC. -/
def parseFailOracle : List Nat → Except Unit Unit := fun _ => .error ()

/-- An `sr.AudioFile` parse that succeeds. -/
def parseOkOracle : List Nat → Except Unit Unit := fun _ => .ok ()

/-- A recognizer that always transcribes "hi": the speech service is
reachable and never raises `RequestError`. -/
def recognizeOkOracle : List Nat → RecogResult := fun _ => .recognized "hi"

/-- A recognizer that always reports unintelligible speech
(`sr.UnknownValueError`). -/
def recognizeUnkOracle : List Nat → RecogResult := fun _ => .unknownValueError

/-- A transcription that always succeeds with "hello". -/
def transcribeOkC3 : List Nat → Except String String := fun _ => .ok "hello"

/-! ### Claim theorems -/

/-- C1: starting from the empty registry, after any sequence of
connect (join) and disconnect (leave) operations, a room key is present
in `rooms` if and only if its participant list is non-empty: rooms are
created on first join and deleted the moment the last participant
leaves. -/
theorem claim_C1_room_present_iff_nonempty (ops : List Op) (r : String) :
    (lookupRoom (runOps ops) r).isSome = true ↔
      ¬ participants (runOps ops) r = [] := by
  cases hl : lookupRoom (runOps ops) r with
  | none => simp [hl, participants]
  | some l =>
      simp only [hl, Option.isSome_some, participants, Option.getD_some,
        true_iff]
      exact regInv_runOps ops r l hl

/-- C4: a join attempt on a room already holding 2 participants (the
configured capacity) is rejected with close code 1000 and leaves the
registry — in particular that room's membership — exactly unchanged. -/
theorem claim_C4_full_room_join_rejected (st : Registry) (room_id : String)
    (c : Conn) (h : 2 ≤ (participants st room_id).length) :
    connect st room_id c = (st, .rejected capacityCloseCode) := by
  cases hl : lookupRoom st room_id with
  | none => simp [participants, hl] at h
  | some l =>
      simp only [participants, hl, Option.getD_some] at h
      exact connect_full st room_id c l hl h

/-- Witness for C4: room "r1" already holds `connA` and `connB`;
`connC`'s join is rejected with code 1000 and the registry still holds
exactly `[connA, connB]`. -/
theorem claim_C4_full_room_join_rejected_witness :
    connect [("r1", [connA, connB])] "r1" connC
      = ([("r1", [connA, connB])], ConnectResult.rejected capacityCloseCode) :=
  claim_C4_full_room_join_rejected [("r1", [connA, connB])] "r1" connC
    (by decide)

/-- C5: `disconnect` is idempotent — the second call for an
already-removed websocket changes nothing — and calling it for a
websocket that is not in the (absent or non-empty-listed) room is a
no-op on the registry. -/
theorem claim_C5_leave_idempotent :
    (∀ (st : Registry) (r : String) (w : Nat),
      disconnect (disconnect st r w) r w = disconnect st r w) ∧
    (∀ (st : Registry) (r : String) (w : Nat),
      ¬ lookupRoom st r = some [] →
      (∀ c ∈ participants st r, ¬ c.websocket = w) →
      disconnect st r w = st) := by
  constructor
  · intro st r w
    cases hl : lookupRoom st r with
    | none =>
        rw [disconnect_absent st r w hl]
        exact disconnect_absent st r w hl
    | some l =>
        by_cases hemp : l.filter (keepConn w) = []
        · rw [disconnect_to_empty st r w l hl hemp]
          exact disconnect_absent _ r w (lookupRoom_delRoom_self _ r)
        · rw [disconnect_keep st r w l hl hemp]
          have hl2 : lookupRoom (setRoom st r (l.filter (keepConn w))) r
              = some (l.filter (keepConn w)) :=
            lookupRoom_setRoom_self st r _
          have hfilt : (l.filter (keepConn w)).filter (keepConn w)
              = l.filter (keepConn w) :=
            List.filter_eq_self.mpr (fun c hc => List.of_mem_filter hc)
          rw [disconnect_keep _ r w _ hl2 (by rw [hfilt]; exact hemp)]
          rw [hfilt]
          exact setRoom_self_eq _ _ _ hl2
  · intro st r w hne h
    cases hl : lookupRoom st r with
    | none => exact disconnect_absent st r w hl
    | some l =>
        have hfilt : l.filter (keepConn w) = l :=
          List.filter_eq_self.mpr (fun c hc => by
            have hcw := h c (by simpa [participants, hl] using hc)
            simpa [keepConn] using hcw)
        have hlne : ¬ l = [] := fun hh => hne (by rw [hl, hh])
        rw [disconnect_keep st r w l hl (by rw [hfilt]; exact hlne)]
        rw [hfilt]
        exact setRoom_self_eq st r l hl

/-- Witness for C5: removing websocket 9 (absent) from a room holding
only `connA` leaves the registry unchanged. -/
theorem claim_C5_leave_idempotent_witness :
    disconnect [("r1", [connA])] "r1" 9 = [("r1", [connA])] :=
  claim_C5_leave_idempotent.2 [("r1", [connA])] "r1" 9 (by decide) (by decide)

/-- C6: `translate_text` catches every exception of the underlying
googletrans call and falls back to the untranslated input text, so a
translation-service failure yields the original text and never
propagates. -/
theorem claim_C6_translation_fallback
    (tr : String → String → Except Unit String) (text target_language : String)
    (h : tr text target_language = .error ()) :
    translate_text tr text target_language = text := by
  simp [translate_text, h]

/-- Witness for C6: with an always-failing translation adapter the
result is the untranslated input. -/
theorem claim_C6_translation_fallback_witness :
    translate_text (fun _ _ => Except.error ()) "hello" "fr" = "hello" :=
  claim_C6_translation_fallback (fun _ _ => Except.error ()) "hello" "fr" rfl

/-- C9: with a missing token (header `or` query both falsy) or a token
`verify_token` rejects, the handler closes with code 1008 before any
registry call, the registry is returned exactly as it was, and 1008 is
distinct from the capacity close code 1000. -/
theorem claim_C9_unauthorized_close (st : Registry)
    (authHeader queryToken : Option String)
    (verify : String → Except Unit Unit)
    (room_id model_id user_id username : String) (ws : Nat)
    (language : Option String)
    (h : pyOr authHeader queryToken = none ∨
      pyOr authHeader queryToken = some "" ∨
      ∃ t, pyOr authHeader queryToken = some t ∧
        verify (stripBearer t) = .error ()) :
    websocket_chat_start st authHeader queryToken verify room_id model_id
        user_id username ws language
      = (st, .closedUnauthorized unauthorizedCloseCode) ∧
    ¬ unauthorizedCloseCode = capacityCloseCode := by
  refine ⟨?_, by decide⟩
  rcases h with h | h | ⟨t, ht, hv⟩
  · simp [websocket_chat_start, h]
  · simp [websocket_chat_start, h]
  · by_cases h0 : t = ""
    · simp [websocket_chat_start, ht, h0]
    · simp [websocket_chat_start, ht, h0, hv]

/-- Witness for C9: no Authorization header and no token query
parameter: the connection is closed with 1008 and the empty registry is
untouched. -/
theorem claim_C9_unauthorized_close_witness :
    websocket_chat_start [] none none (fun _ => Except.ok ()) "r1" "v1"
        "uA" "alice" 1 (some "en")
      = ([], SessionStart.closedUnauthorized unauthorizedCloseCode) ∧
    ¬ unauthorizedCloseCode = capacityCloseCode :=
  claim_C9_unauthorized_close [] none none (fun _ => Except.ok ()) "r1"
    "v1" "uA" "alice" 1 (some "en") (Or.inl rfl)

/-- C2 counterexample: room "r1" holds three participants (alice "en",
bob "fr", carol "en"); alice sends "hello"; synthesis fails for exactly
one recipient (bob's translated text "bonjour") and succeeds with
non-empty audio for the other two texts — yet only websocket 1 (alice)
receives a payload: the loop aborts at bob and carol (websocket 3)
receives nothing, refuting the claim that the other recipients still
receive well-formed payloads. -/
theorem claim_C2_synthesis_isolation_counterexample :
    generate_tts ttsC2 "v1" (resolveText trC2 (some "en") "hello" connA)
      = .ok [1, 2, 3] ∧
    generate_tts ttsC2 "v1" (resolveText trC2 (some "en") "hello" connB)
      = .error () ∧
    generate_tts ttsC2 "v1" (resolveText trC2 (some "en") "hello" connC)
      = .ok [1, 2, 3] ∧
    (chatBroadcast [("r1", [connA, connB, connC])] "r1" trC2 ttsC2
        (some "en") "v1" "uA" "alice" "hello").1.map Prod.fst = [1] ∧
    (chatBroadcast [("r1", [connA, connB, connC])] "r1" trC2 ttsC2
        (some "en") "v1" "uA" "alice" "hello").2 = true := by
  refine ⟨rfl, rfl, rfl, rfl, rfl⟩

/-- C2 amended: when the synthesis adapter fails for one recipient,
recipients EARLIER in the snapshot have already received well-formed
payloads with non-empty audio, but the fan-out loop aborts at the
failing recipient: every recipient after it receives nothing. -/
theorem claim_C2_synthesis_failure_aborts_fanout
    (tr : String → String → Except Unit String)
    (tts : String → String → Except Unit (List Nat))
    (senderLanguage : Option String)
    (model_id user_id username original_text : String)
    (pre : List Conn) (c : Conn) (post : List Conn)
    (hpre : ∀ c' ∈ pre, ∃ b, ¬ b = [] ∧
      tts model_id (resolveText tr senderLanguage original_text c') = .ok b)
    (hc : tts model_id (resolveText tr senderLanguage original_text c)
      = .error ()) :
    (fanOutLoop tr tts senderLanguage model_id user_id username
      original_text (pre ++ c :: post)).2 = true ∧
    (fanOutLoop tr tts senderLanguage model_id user_id username
      original_text (pre ++ c :: post)).1.map Prod.fst
      = pre.map Conn.websocket ∧
    ∀ d ∈ (fanOutLoop tr tts senderLanguage model_id user_id username
      original_text (pre ++ c :: post)).1,
      ¬ d.2.audio = "" ∧ d.2.model_id = model_id ∧
      d.2.user_id = user_id ∧ d.2.username = username := by
  induction pre with
  | nil =>
      rw [List.nil_append,
        fanOutLoop_cons_error tr tts senderLanguage model_id user_id
          username original_text c post hc]
      exact ⟨rfl, rfl, by intro d hd; cases hd⟩
  | cons c' pre' ih =>
      obtain ⟨b, hb, hok⟩ := hpre c' (by simp)
      rw [List.cons_append,
        fanOutLoop_cons_ok tr tts senderLanguage model_id user_id
          username original_text c' (pre' ++ c :: post) b hok]
      have ih' := ih (fun x hx => hpre x (by simp [hx]))
      refine ⟨ih'.1, ?_, ?_⟩
      · simp only [List.map_cons]
        rw [ih'.2.1]
      · intro d hd
        rcases List.mem_cons.mp hd with rfl | hd'
        · exact ⟨b64encodeStr_ne_empty b hb, rfl, rfl, rfl⟩
        · exact ih'.2.2 d hd'

/-- Witness for the amended C2: with `connA` before and `connC` after
the failing recipient `connB`, alice's payload is delivered with
non-empty audio and carol receives nothing. -/
theorem claim_C2_synthesis_failure_aborts_fanout_witness :
    (fanOutLoop trC2 ttsC2 (some "en") "v1" "uA" "alice" "hello"
      ([connA] ++ connB :: [connC])).2 = true ∧
    (fanOutLoop trC2 ttsC2 (some "en") "v1" "uA" "alice" "hello"
      ([connA] ++ connB :: [connC])).1.map Prod.fst
      = [connA].map Conn.websocket ∧
    ∀ d ∈ (fanOutLoop trC2 ttsC2 (some "en") "v1" "uA" "alice" "hello"
      ([connA] ++ connB :: [connC])).1,
      ¬ d.2.audio = "" ∧ d.2.model_id = "v1" ∧
      d.2.user_id = "uA" ∧ d.2.username = "alice" :=
  claim_C2_synthesis_failure_aborts_fanout trC2 ttsC2 (some "en") "v1"
    "uA" "alice" "hello" [connA] connB [connC]
    (by
      intro c' hc'
      rw [List.mem_singleton] at hc'
      subst hc'
      exact ⟨[1, 2, 3], by decide, rfl⟩)
    rfl

/-- C3 (code bug): whenever the transcription is non-empty, the
`/v1/audio/translate` handler calls
`generate_tts(default_model_id, translated_text, target_language)` with
THREE positional arguments while `utils.generate_tts` takes exactly two
`(voice_id, text)`; Python raises `TypeError`, the catch-all turns it
into HTTP 500, and the documented success JSON is never returned. -/
theorem claim_C3_audio_translate_always_500
    (transcribe : List Nat → Except String String)
    (tr : String → String → Except Unit String)
    (tts : String → String → Except Unit (List Nat))
    (wav_bytes : List Nat) (target_language : String) (t : String)
    (ht : transcribe wav_bytes = .ok t) (hne : ¬ t = "") :
    audio_translate transcribe tr tts wav_bytes target_language
      = .error (500,
        "TypeError: generate_tts() takes 2 positional arguments but 3 were given") := by
  simp only [audio_translate, ht, call_generate_tts]
  rw [if_neg hne]
  have h3 : (["default", translate_text tr t target_language,
      target_language] : List String).length = 3 := rfl
  rw [h3]
  rfl

/-- Witness for C3: a clip transcribing to "hello", target "fr",
with translation and synthesis adapters that would succeed: the
endpoint still reports the 500 TypeError. -/
theorem claim_C3_audio_translate_always_500_witness :
    audio_translate transcribeOkC3 trFailOracle ttsOkOracle [9] "fr"
      = .error (500,
        "TypeError: generate_tts() takes 2 positional arguments but 3 were given") :=
  claim_C3_audio_translate_always_500 transcribeOkC3 trFailOracle
    ttsOkOracle [9] "fr" "hello" rfl (by decide)

/-- C7 counterexample: with input bytes the `sr.AudioFile` block cannot
read, `transcribe_audio` raises even though the recognition service is
reachable (the recognizer always transcribes successfully and never
raises `RequestError`): the code does not raise "exactly when the
transcription service itself is unreachable". -/
theorem claim_C7_unreadable_audio_counterexample :
    (∀ b, recognizeOkOracle b = RecogResult.recognized "hi") ∧
    transcribe_audio parseFailOracle recognizeOkOracle [0]
      = .error
        "Audio file could not be read as PCM WAV, AIFF/AIFC, or Native FLAC" :=
  ⟨fun _ => rfl, rfl⟩

/-- C7 amended: unintelligible speech yields `.ok ""` (not an error),
and `transcribe_audio` raises exactly when the service is unreachable
(`RequestError`) OR the input bytes cannot be read as an audio file
(the `sr.AudioFile` parse sits outside the try/except). -/
theorem claim_C7_transcription_error_modes
    (parseAudioFile : List Nat → Except Unit Unit)
    (recognize : List Nat → RecogResult) (audio_data : List Nat) :
    (parseAudioFile audio_data = .ok () →
      recognize audio_data = .unknownValueError →
      transcribe_audio parseAudioFile recognize audio_data = .ok "") ∧
    ((∃ e, transcribe_audio parseAudioFile recognize audio_data
        = .error e) ↔
      parseAudioFile audio_data = .error () ∨
      ∃ m, recognize audio_data = .requestError m) := by
  constructor
  · intro hp hr
    simp [transcribe_audio, hp, hr]
  · cases hp : parseAudioFile audio_data with
    | error e => simp [transcribe_audio, hp]
    | ok u =>
        cases hr : recognize audio_data with
        | recognized t => simp [transcribe_audio, hp, hr]
        | unknownValueError => simp [transcribe_audio, hp, hr]
        | requestError m => simp [transcribe_audio, hp, hr]

/-- Witness for the amended C7: a readable clip whose speech is
unintelligible transcribes to the empty string without raising. -/
theorem claim_C7_transcription_error_modes_witness :
    transcribe_audio parseOkOracle recognizeUnkOracle [0] = .ok "" :=
  (claim_C7_transcription_error_modes parseOkOracle recognizeUnkOracle
    [0]).1 rfl rfl

/-- C8: on a transport disconnect the handler first removes the
departed websocket from the registry (the room no longer contains it)
and then sends each connection remaining in that room exactly one
departure-notice payload whose `audio` is the empty string and whose
`text` names the departed user. -/
theorem claim_C8_departure_notice (st : Registry) (room_id : String)
    (ws : Nat) (model_id user_id username : String) :
    (∀ c ∈ participants
        (handle_disconnect st room_id ws model_id user_id username).1
        room_id, ¬ c.websocket = ws) ∧
    (handle_disconnect st room_id ws model_id user_id username).2
      = (participants (disconnect st room_id ws) room_id).map
          (fun c => (c.websocket,
            ⟨model_id, user_id, username,
              username ++ " has disconnected from room " ++ room_id ++ ".",
              ""⟩)) ∧
    ∀ d ∈ (handle_disconnect st room_id ws model_id user_id username).2,
      d.2.audio = "" ∧ d.2.text = departureText username room_id := by
  refine ⟨?_, rfl, ?_⟩
  · intro c hc
    cases hl : lookupRoom st room_id with
    | none =>
        have hd := disconnect_absent st room_id ws hl
        simp only [handle_disconnect] at hc
        rw [hd] at hc
        simp [participants, hl] at hc
    | some l =>
        simp only [handle_disconnect] at hc
        by_cases hemp : l.filter (keepConn ws) = []
        · rw [disconnect_to_empty st room_id ws l hl hemp] at hc
          simp [participants, lookupRoom_delRoom_self] at hc
        · rw [disconnect_keep st room_id ws l hl hemp] at hc
          simp only [participants, lookupRoom_setRoom_self,
            Option.getD_some] at hc
          simpa [keepConn] using List.of_mem_filter hc
  · intro d hd
    simp only [handle_disconnect, List.mem_map] at hd
    obtain ⟨c, _, rfl⟩ := hd
    exact ⟨rfl, rfl⟩

/-- C10: when every synthesis call succeeds, one utterance fans out to
exactly one payload per stored connection — the sender included, since
`connect` appends the caller's own record (with its declared language)
to the room — and a recipient whose stored language equals the sender's
`language` (in particular the sender itself) receives the original
untranslated text. -/
theorem claim_C10_sender_echo_untranslated
    (tr : String → String → Except Unit String)
    (tts : String → String → Except Unit (List Nat))
    (senderLanguage : Option String)
    (model_id user_id username original_text : String)
    (h : ∀ text, ∃ b, tts model_id text = Except.ok b) :
    (∀ (st : Registry) (room : String) (c : Conn),
      (connect st room c).2 = ConnectResult.joined →
      participants (connect st room c).1 room
        = participants st room ++ [c]) ∧
    ∀ conns : List Conn,
      (fanOutLoop tr tts senderLanguage model_id user_id username
        original_text conns).2 = false ∧
      (fanOutLoop tr tts senderLanguage model_id user_id username
        original_text conns).1.map Prod.fst = conns.map Conn.websocket ∧
      ∀ p ∈ (fanOutLoop tr tts senderLanguage model_id user_id username
        original_text conns).1.zip conns,
        p.1.1 = p.2.websocket ∧
        (p.2.language = senderLanguage → p.1.2.text = original_text) := by
  constructor
  · intro st room c hj
    cases hl : lookupRoom st room with
    | none =>
        rw [connect_absent st room c hl]
        simp [participants, lookupRoom_setRoom_self, hl]
    | some l =>
        by_cases hlen : 2 ≤ l.length
        · rw [connect_full st room c l hl hlen] at hj
          simp at hj
        · rw [connect_avail st room c l hl hlen]
          simp [participants, lookupRoom_setRoom_self, hl]
  · intro conns
    induction conns with
    | nil => exact ⟨rfl, rfl, by intro p hp; cases hp⟩
    | cons c' rest ih =>
        obtain ⟨b, hb⟩ :=
          h (resolveText tr senderLanguage original_text c')
        rw [fanOutLoop_cons_ok tr tts senderLanguage model_id user_id
          username original_text c' rest b hb]
        refine ⟨ih.1, by simp only [List.map_cons]; rw [ih.2.1], ?_⟩
        intro p hp
        rw [List.zip_cons_cons] at hp
        rcases List.mem_cons.mp hp with rfl | hp'
        · refine ⟨rfl, ?_⟩
          intro hlang
          have hl' : c'.language = senderLanguage := hlang
          simp [resolveText, hl']
        · exact ih.2.2 p hp'

/-- Witness for C10: with an always-succeeding synthesis adapter, a
room holding alice ("en") and bob ("fr") and sender language "en"
yields exactly two payloads, one per stored connection, and the
language-"en" recipient's text is the untranslated original. -/
theorem claim_C10_sender_echo_untranslated_witness :
    (fanOutLoop trFailOracle ttsOkOracle (some "en") "v1" "uA" "alice"
      "hi" [connA, connB]).2 = false ∧
    (fanOutLoop trFailOracle ttsOkOracle (some "en") "v1" "uA" "alice"
      "hi" [connA, connB]).1.map Prod.fst
      = [connA, connB].map Conn.websocket ∧
    ∀ p ∈ (fanOutLoop trFailOracle ttsOkOracle (some "en") "v1" "uA"
      "alice" "hi" [connA, connB]).1.zip [connA, connB],
      p.1.1 = p.2.websocket ∧
      (p.2.language = some "en" → p.1.2.text = "hi") :=
  (claim_C10_sender_echo_untranslated trFailOracle ttsOkOracle
    (some "en") "v1" "uA" "alice" "hi"
    (fun _ => ⟨[1, 2, 3], rfl⟩)).2 [connA, connB]

end Comet
